import Mathlib

/-!
Verification of the DevOps incident-response agent.

This file shallowly embeds the core of the agent (the remediation engine in
`remediation.py`, the metric monitor in `monitor.py`, the notifier in
`notifier.py`, and the alert-handling orchestration in `opsbot_agent.py`)
as executable Lean definitions, and proves or refutes the specified
properties about them.

Modelling conventions:
* Python dict keys that may be absent are `Option` fields, and `dict.get`
  with a default becomes `Option.getD`.
* External collaborators (the Docker daemon, `subprocess` calls, the
  Prometheus endpoint, Slack/webhook delivery) are oracles bundled in a
  `World`: each oracle records what the collaborator would answer,
  `Except` results model calls that may raise.
* Side effects on the outside world (restarting a container, sending a
  kill signal, posting a message) are recorded in an explicit `Effect`
  trace returned next to the value of each function.
* Wall-clock timestamps (`datetime.now()`) and `time.sleep` are not
  modelled: no verified property mentions them.
* Metric readings (Python floats) are modelled as rationals; the code
  only compares and copies them.
-/

/-- The Python `needle in hay` substring test on strings. -/
def strContains (hay needle : String) : Bool :=
  (List.range (hay.length + 1)).any (fun i => needle.toList.isPrefixOf (hay.toList.drop i))

/-- The Python `str.strip()` (whitespace trim), written over the
character list so that it evaluates by kernel reduction. -/
def pyStrip (s : String) : String :=
  String.mk (((s.toList.dropWhile Char.isWhitespace).reverse.dropWhile
    Char.isWhitespace).reverse)

/-- Splitting a character list at every occurrence of a separator. -/
def splitOnChar (c : Char) : List Char → List Char → List (List Char)
  | [], acc => [acc.reverse]
  | x :: xs, acc =>
    if x = c then acc.reverse :: splitOnChar c xs []
    else splitOnChar c xs (x :: acc)

/-- The Python `s.split(sep)` for a one-character separator. -/
def pySplit (s : String) (c : Char) : List String :=
  (splitOnChar c s.toList []).map String.mk

/-- The Python `line.split(space, 1)`: split at the first space only. -/
def splitFirstSpace (line : String) : List String :=
  let cs := line.toList
  if cs.contains ' ' then
    [String.mk (cs.takeWhile (fun c => c ≠ ' ')),
     String.mk ((cs.dropWhile (fun c => c ≠ ' ')).drop 1)]
  else
    [line]

/-- The Python `str.lower()` (ASCII case folding, which covers the
process names involved), written over the character list so that it
evaluates by kernel reduction. -/
def pyLower (s : String) : String := String.mk (s.toList.map Char.toLower)

/-- The Python rendering of an optional string inside an f-string
(`None` prints as `"None"`). -/
def optStr : Option String → String
  | some s => s
  | none => "None"

/-- An alert dict as built by `SystemMonitor.check_anomalies` /
consumed by the agent (`type`, `value`, `threshold`, `severity` keys;
the wall-clock `timestamp` key is not modelled). -/
structure AlertData where
  type : Option String
  value : Option Rat
  threshold : Option Rat
  severity : Option String
  deriving DecidableEq, Repr

/-- The analysis dict produced by `LogAnalyzer.analyze_incident`
(the LLM verdict plus the `alert_data` key the analyzer inserts).
Fields are `Option` because `execute_remediation` and the notifier read
them with `dict.get` defaults. -/
structure AnalysisResult where
  root_cause : Option String
  confidence : Option String
  evidence : Option (List String)
  requires_human_intervention : Option Bool
  alert_data : Option AlertData
  deriving DecidableEq, Repr

/-- The result dict of one remediation step: always a `success` and `message`
key; `killed_processes` is present only on process-kill results and
`actions_taken` only on disk-cleanup results. -/
structure StepResult where
  success : Bool
  message : String
  killed_processes : Option (List String)
  actions_taken : Option (List String)
  deriving DecidableEq, Repr

/-- The dict returned by `RemediationEngine.execute_remediation`. The
gate returns a dict with keys `success`, `message`, `reason` (no
`remediation_results` key); the normal path returns a dict with keys
`success` and `remediation_results`. -/
inductive RemediationOutcome where
  | skip (message : String) (reason : String)
  | done (success : Bool) (results : List StepResult)
  deriving DecidableEq, Repr

/-- `remediation_result.get("success")`. -/
def RemediationOutcome.success : RemediationOutcome → Bool
  | .skip _ _ => false
  | .done s _ => s

/-- `remediation_result.get("remediation_results", [])`. -/
def RemediationOutcome.results : RemediationOutcome → List StepResult
  | .skip _ _ => []
  | .done _ rs => rs

/-- `remediation_result.get("message", default)`: only the skip dict
carries a `message` key. -/
def RemediationOutcome.messageD : RemediationOutcome → String → String
  | .skip m _, _ => m
  | .done _ _, d => d

/-- Observable side effects on the outside world, in order of
occurrence. `containerRestart` marks the container-restart step being
invoked for a container; `psQuery` marks the high-CPU process listing
being run with its threshold; `kill` marks an actual `kill -9` signal
being sent; `prune` marks the Docker prune calls; `runCmd` marks a
cleanup shell command; the last four mark notification deliveries. -/
inductive Effect where
  | containerRestart (name : String)
  | psQuery (threshold : Nat)
  | kill (pid : String) (name : String)
  | prune
  | runCmd (cmd : String)
  | slackPost (message : String)
  | webhookPost
  | logAppend
  | consoleNotify
  deriving DecidableEq, Repr

/-- Fate of `containers.get(name)` + `restart()` + `reload()` for one
container name: the lookup raises `NotFound`, some call raises another
exception, or the sequence completes and the reloaded status is `s`. -/
inductive ContainerFate where
  | notFound
  | raised (msg : String)
  | status (s : String)

/-- Oracle for the Docker client: what `containers.list()` returns (or
raises), the restart fate of each container, and whether the prune calls
succeed. -/
structure DockerEnv where
  listContainers : Except String (List String)
  fate : String → ContainerFate
  pruneOk : Bool

/-- Oracle for the Prometheus queries: each query either raises or
returns the list of sample values. -/
structure MonitorEnv where
  cpuQ : Except String (List Rat)
  memQ : Except String (List Rat)
  diskQ : Except String (List Rat)
  netQ : Except String (List Rat)

/-- Oracle for the notification channels: whether a Slack client is
configured and whether posting succeeds, the webhook URL and the HTTP
status of posting to it (`none` = the request raised), and whether the
incident-log file append succeeds. -/
structure NotifierEnv where
  slackConfigured : Bool
  slackOk : Bool
  webhookUrl : Option String
  webhookStatus : Option Nat
  logOk : Bool

/-- The whole outside world one alert-handling run interacts with:
the Docker client (`none` = `docker.from_env()` failed at startup), the
`ps`-sweep subprocess output per threshold, whether `kill -9 pid`
is accepted, whether each cleanup command exits 0, the metric source,
the notifier configuration, the verdict the LLM analyzer produces, and
the `auto_remediation` config flag. -/
structure World where
  docker : Option DockerEnv
  psOutput : Nat → Except String String
  killOk : String → Bool
  cmdOk : String → Bool
  mon : MonitorEnv
  cfg : NotifierEnv
  llmVerdict : AnalysisResult
  autoRemediation : Bool

/-! ## `monitor.py` — `SystemMonitor` -/

/-- `SystemMonitor.__init__`: `self.cpu_threshold = 80.0`. -/
def cpu_threshold : Rat := 80

/-- `SystemMonitor.__init__`: `self.memory_threshold = 85.0`. -/
def memory_threshold : Rat := 85

/-- `SystemMonitor.__init__`: `self.disk_threshold = 90.0`. -/
def disk_threshold : Rat := 90

/-- `SystemMonitor.__init__`: `self.network_threshold = 1000000`. -/
def network_threshold : Rat := 1000000

/-- `SystemMonitor.get_cpu_usage`: first sample of the CPU query;
`0.0` when the query raises or returns no samples. -/
def get_cpu_usage (m : MonitorEnv) : Rat :=
  match m.cpuQ with
  | .error _ => 0
  | .ok [] => 0
  | .ok (v :: _) => v

/-- `SystemMonitor.get_memory_usage`: first sample of the memory query;
`0.0` when the query raises or returns no samples. -/
def get_memory_usage (m : MonitorEnv) : Rat :=
  match m.memQ with
  | .error _ => 0
  | .ok [] => 0
  | .ok (v :: _) => v

/-- `SystemMonitor.get_disk_usage`: max over the per-filesystem samples;
`0.0` when the query raises or returns no samples. -/
def get_disk_usage (m : MonitorEnv) : Rat :=
  match m.diskQ with
  | .error _ => 0
  | .ok [] => 0
  | .ok (v :: vs) => vs.foldl max v

/-- `SystemMonitor.get_network_usage`: sum over the per-interface
samples; `0.0` when the query raises or returns no samples. -/
def get_network_usage (m : MonitorEnv) : Rat :=
  match m.netQ with
  | .error _ => 0
  | .ok [] => 0
  | .ok (v :: vs) => vs.foldl (fun a b => a + b) v

/-- `SystemMonitor.check_anomalies`: one alert dict per breached
threshold, in CPU, memory, disk, network order. -/
def check_anomalies (m : MonitorEnv) : List AlertData :=
  let cpu_usage := get_cpu_usage m
  let memory_usage := get_memory_usage m
  let disk_usage := get_disk_usage m
  let network_usage := get_network_usage m
  (if cpu_usage > cpu_threshold then
    [⟨some ("CPU_SPIKE"), some cpu_usage, some cpu_threshold,
      some (if cpu_usage > 90 then ("HIGH") else ("MEDIUM"))⟩]
   else []) ++
  (if memory_usage > memory_threshold then
    [⟨some ("MEMORY_SPIKE"), some memory_usage, some memory_threshold,
      some (if memory_usage > 95 then ("HIGH") else ("MEDIUM"))⟩]
   else []) ++
  (if disk_usage > disk_threshold then
    [⟨some ("DISK_SPIKE"), some disk_usage, some disk_threshold, some ("HIGH")⟩]
   else []) ++
  (if network_usage > network_threshold then
    [⟨some ("NETWORK_SPIKE"), some network_usage, some network_threshold, some ("MEDIUM")⟩]
   else [])

/-! ## `remediation.py` — `RemediationEngine` -/

/-- `RemediationEngine.restart_docker_container`: look the container up,
restart it, and re-check its status; every exception is caught and
becomes a failed result. The emitted effect marks the restart step being
invoked for this container. -/
def restart_docker_container (docker : Option DockerEnv) (container_name : String) :
    StepResult × List Effect :=
  let eff := [Effect.containerRestart container_name]
  match docker with
  | none => (⟨false, "Docker client not available", none, none⟩, eff)
  | some d =>
    match d.fate container_name with
    | .notFound => (⟨false, s!"Container {container_name} not found", none, none⟩, eff)
    | .raised e => (⟨false, s!"Error restarting container: {e}", none, none⟩, eff)
    | .status s =>
      if s = "running" then
        (⟨true, s!"Container {container_name} restarted successfully", none, none⟩, eff)
      else
        (⟨false, s!"Container {container_name} failed to start after restart", none, none⟩, eff)

/-- The names `kill_high_cpu_processes` treats as critical system
processes. -/
def criticalNames : List String := ["systemd", "kernel", "init"]

/-- `any(critical in process_name.lower() for critical in [...])`. -/
def isProtected (process_name : String) : Bool :=
  criticalNames.any (fun critical => strContains (pyLower process_name) critical)

/-- Body of the per-line loop in `kill_high_cpu_processes`: parse
`pid name`, skip protected names, otherwise send `kill -9` (recorded as
an effect) and append to the killed list if the signal was accepted. -/
def killStep (w : World) (acc : List String × List Effect) (line : String) :
    List String × List Effect :=
  match splitFirstSpace line with
  | [pid, process_name] =>
    if isProtected process_name then acc
    else
      let eff := acc.2 ++ [Effect.kill pid process_name]
      if w.killOk pid then (acc.1 ++ [s!"{process_name} (PID: {pid})"], eff)
      else (acc.1, eff)
  | _ => acc

/-- `RemediationEngine.kill_high_cpu_processes`: list processes at or
above the CPU threshold, kill the unprotected ones, and report success
iff the listing ran and was non-empty (note: not iff any kill was
accepted). -/
def kill_high_cpu_processes (w : World) (cpu_threshold : Nat) :
    StepResult × List Effect :=
  match w.psOutput cpu_threshold with
  | .error e =>
    (⟨false, s!"Error killing processes: {e}", none, none⟩, [Effect.psQuery cpu_threshold])
  | .ok out =>
    if pyStrip out = "" then
      (⟨false, "No high CPU processes found", none, none⟩, [Effect.psQuery cpu_threshold])
    else
      let lines := pySplit (pyStrip out) (Char.ofNat 10)
      let kp := lines.foldl (killStep w) ([], [])
      let n := kp.1.length
      (⟨true, s!"Killed {n} high CPU processes", some kp.1, none⟩,
       Effect.psQuery cpu_threshold :: kp.2)

/-- The fixed cleanup command list in `clear_disk_space`. -/
def tempCommands : List String :=
  ["sudo rm -rf /tmp/*", "sudo journalctl --vacuum-time=3d",
   "sudo apt-get autoremove -y", "sudo apt-get autoclean"]

/-- Body of the cleanup-command loop in `clear_disk_space`: run the
command (recorded as an effect) and append to `actions_taken` when it
exits 0; a failing command is only logged. -/
def cmdStep (w : World) (acc : List String × List Effect) (cmd : String) :
    List String × List Effect :=
  let eff := acc.2 ++ [Effect.runCmd cmd]
  if w.cmdOk cmd then (acc.1 ++ [s!"Executed: {cmd}"], eff) else (acc.1, eff)

/-- `RemediationEngine.clear_disk_space`: prune Docker resources (when a
client is available), run the fixed cleanup commands, and always report
success with the successful sub-operations in `actions_taken`. -/
def clear_disk_space (w : World) : StepResult × List Effect :=
  let dockerPart : List String × List Effect :=
    match w.docker with
    | none => ([], [])
    | some d =>
      if d.pruneOk then (["Docker cleanup completed"], [Effect.prune])
      else ([], [Effect.prune])
  let cmdPart := tempCommands.foldl (cmdStep w) ([], [])
  (⟨true, "Disk cleanup completed", none, some (dockerPart.1 ++ cmdPart.1)⟩,
   dockerPart.2 ++ cmdPart.2)

/-- `analysis_result.get("alert_data", empty dict).get("type", "UNKNOWN")`. -/
def alertTypeOf (a : AnalysisResult) : String :=
  match a.alert_data with
  | none => "UNKNOWN"
  | some ad => ad.type.getD ("UNKNOWN")

/-- `RemediationEngine.execute_remediation`: gate on confidence /
human-intervention, then dispatch on the alert type. The `Except` layer
records that `containers.list()` may raise out of this method (it is the
one call not wrapped in a `try`); effects accumulated before such a
raise are kept in the trace. -/
def execute_remediation (w : World) (analysis_result : AnalysisResult) :
    Except String RemediationOutcome × List Effect :=
  let confidence := analysis_result.confidence.getD ("LOW")
  let requires_human := analysis_result.requires_human_intervention.getD true
  if requires_human || confidence == "LOW" then
    (.ok (.skip ("Remediation requires human intervention")
               "Low confidence or human intervention required"), [])
  else
    let alert_type := alertTypeOf analysis_result
    if alert_type == "CPU_SPIKE" then
      match w.docker with
      | some d =>
        match d.listContainers with
        | .error e => (.error e, [])
        | .ok containers =>
          let rsteps := (containers.take 3).map (restart_docker_container w.docker)
          let results := rsteps.map Prod.fst
          let reff := (rsteps.map Prod.snd).flatten
          let kk := kill_high_cpu_processes w 90
          let all := results ++ [kk.1]
          (.ok (.done (all.any (fun r => r.success)) all), reff ++ kk.2)
      | none =>
        let kk := kill_high_cpu_processes w 90
        (.ok (.done ([kk.1].any (fun r => r.success)) [kk.1]), kk.2)
    else if alert_type == "MEMORY_SPIKE" then
      match w.docker with
      | some d =>
        match d.listContainers with
        | .error e => (.error e, [])
        | .ok containers =>
          let rsteps := (containers.take 2).map (restart_docker_container w.docker)
          let results := rsteps.map Prod.fst
          let reff := (rsteps.map Prod.snd).flatten
          (.ok (.done (results.any (fun r => r.success)) results), reff)
      | none => (.ok (.done false []), [])
    else if alert_type == "DISK_SPIKE" then
      let cc := clear_disk_space w
      (.ok (.done ([cc.1].any (fun r => r.success)) [cc.1]), cc.2)
    else
      (.ok (.done false []), [])

/-! ## `notifier.py` — `NotificationManager` -/

/-- The severity-emoji lookup in `format_alert_message`
(`dict.get(severity, default emoji)`). -/
def severityEmoji (severity : String) : String :=
  if severity = "HIGH" then "🚨"
  else if severity = "MEDIUM" then "⚠️"
  else if severity = "LOW" then "🔸"
  else "⚠️"

/-- `NotificationManager.format_alert_message`: the human-readable
incident summary (the wall-clock timestamp line is not modelled). -/
def format_alert_message (alert_data : AlertData) (analysis_result : Option AnalysisResult)
    (remediation_result : Option RemediationOutcome) : String :=
  let alert_type := alert_data.type.getD ("UNKNOWN")
  let value := alert_data.value.getD 0
  let threshold := alert_data.threshold.getD 0
  let severity := alert_data.severity.getD ("MEDIUM")
  let emoji := severityEmoji severity
  let base :=
    s!"{emoji} **SYSTEM ALERT - {alert_type}**\n\n📊 **Metrics:**\n" ++
    s!"• Current Value: {value}%\n• Threshold: {threshold}%\n• Severity: {severity}\n\n"
  let base :=
    match analysis_result with
    | none => base
    | some ar =>
      let root_cause := ar.root_cause.getD ("Unknown")
      let confidence := ar.confidence.getD ("LOW")
      let ev := String.intercalate (", ") ((ar.evidence.getD []).take 3)
      base ++ s!"🔍 **Root Cause Analysis:**\n• Identified Cause: {root_cause}\n" ++
        s!"• Confidence: {confidence}\n• Evidence: {ev}\n\n"
  let base :=
    match remediation_result with
    | none => base
    | some r =>
      if r.success then
        let detail := r.messageD ("Remediation completed")
        let header := base ++
          s!"✅ **Automated Remediation:**\n• Action: Successful\n• Details: {detail}\n\n"
        r.results.foldl
          (fun acc res =>
            let m := res.message
            if res.success then acc ++ s!"• ✓ {m}\n" else acc)
          header
      else
        let reason := r.messageD ("Unknown error")
        base ++ s!"❌ **Remediation Failed:**\n• Reason: {reason}\n" ++
          "• **HUMAN INTERVENTION REQUIRED**\n\n"
  pyStrip (base ++
    "🔗 **Actions:**\n• Check Grafana Dashboard: http://localhost:3000\n" ++
    "• View Prometheus Metrics: http://localhost:9090\n• System Status: OK\n\n---\n" ++
    "*OpsBot - Automated DevOps Monitoring*")

/-- `NotificationManager.send_slack_notification`: post to the Slack
channel when a client is configured; a Slack API error is caught and
reported as `false`. -/
def send_slack_notification (cfg : NotifierEnv) (message : String) :
    Bool × List Effect :=
  if cfg.slackConfigured then (cfg.slackOk, [Effect.slackPost message])
  else (false, [])

/-- `NotificationManager.send_webhook_notification`: POST the incident
payload when a webhook URL is configured; success iff HTTP 200, request
exceptions are caught and reported as `false`. -/
def send_webhook_notification (cfg : NotifierEnv) : Bool × List Effect :=
  match cfg.webhookUrl with
  | none => (false, [])
  | some _ => (cfg.webhookStatus == some 200, [Effect.webhookPost])

/-- `NotificationManager.log_incident`: append the incident record to
`incidents.log`; file errors are caught and reported as `false`. -/
def log_incident (cfg : NotifierEnv) : Bool × List Effect :=
  (cfg.logOk, [Effect.logAppend])

/-- `NotificationManager.send_notification`: format the message, then
deliver over Slack (if configured), the webhook (if configured), the
incident log, and the console fallback. Returns the per-channel
delivery booleans `(slack, webhook, log)`. -/
def send_notification (cfg : NotifierEnv) (alert_data : AlertData)
    (analysis_result : Option AnalysisResult)
    (remediation_result : Option RemediationOutcome) :
    (Bool × Bool × Bool) × List Effect :=
  let message := format_alert_message alert_data analysis_result remediation_result
  let slackPart :=
    if cfg.slackConfigured then send_slack_notification cfg message else (false, [])
  let webPart :=
    match cfg.webhookUrl with
    | some _ => send_webhook_notification cfg
    | none => (false, [])
  let logPart := log_incident cfg
  ((slackPart.1, webPart.1, logPart.1),
   slackPart.2 ++ webPart.2 ++ logPart.2 ++ [Effect.consoleNotify])

/-! ## `opsbot_agent.py` — `OpsBotAgent` and `analyzer.py` -/

/-- `LogAnalyzer.analyze_incident`: the LLM verdict (an oracle in the
`World`; `analyze_logs_with_llm` catches its own failures and returns a
low-confidence, human-required fallback, so this never raises) with the
`alert_data` key set to the alert being analyzed. -/
def analyze_incident (w : World) (alert_data : AlertData) : AnalysisResult :=
  let v := w.llmVerdict
  ⟨v.root_cause, v.confidence, v.evidence, v.requires_human_intervention, some alert_data⟩

/-- Result of `OpsBotAgent.verify_remediation`: whether the re-poll
found no alert of the original type, the verification message chosen,
and the notification effects emitted. -/
structure VerifyReport where
  resolved : Bool
  message : String
  effects : List Effect
  deriving DecidableEq, Repr

/-- `OpsBotAgent.verify_remediation`: re-poll the monitor, treat the
incident as resolved iff no fresh alert has the type of the original alert,
and send the verdict as a Slack notification. -/
def verify_remediation (w : World) (original_alert : AlertData) : VerifyReport :=
  let new_alerts := check_anomalies w.mon
  let alert_type := original_alert.type
  let resolved := !(new_alerts.any (fun al => al.type == alert_type))
  let t := optStr alert_type
  let verification_message :=
    if resolved then
      s!"✅ System has been successfully remediated. {t} is now within normal thresholds."
    else
      s!"❌ {t} persists after remediation. Manual intervention required."
  ⟨resolved, verification_message,
   (send_slack_notification w.cfg verification_message).2⟩

/-- `OpsBotAgent.handle_alert`: analyze, remediate (when
`auto_remediation` is enabled), notify, and verify after successful
remediation. The surrounding `try/except` means an exception escaping
`execute_remediation` (its unguarded `containers.list()` call) aborts
the remaining steps — in particular the notification — after the
effects already performed. Returns the effect trace of the run. -/
def handle_alert (w : World) (alert_data : AlertData) : List Effect :=
  let analysis_result := analyze_incident w alert_data
  if w.autoRemediation then
    match execute_remediation w analysis_result with
    | (.error _, eff) => eff
    | (.ok remediation_result, eff) =>
      let neff := (send_notification w.cfg alert_data (some analysis_result)
        (some remediation_result)).2
      if remediation_result.success then
        eff ++ neff ++ (verify_remediation w alert_data).effects
      else
        eff ++ neff
  else
    (send_notification w.cfg alert_data (some analysis_result) none).2

/-- Whether the run of `handle_alert` reaches the verification step:
auto-remediation enabled and `execute_remediation` returned a dict whose
`success` is true. -/
def remediationSucceeded (w : World) (alert_data : AlertData) : Bool :=
  w.autoRemediation &&
    (match (execute_remediation w (analyze_incident w alert_data)).1 with
     | .ok r => r.success
     | .error _ => false)

/-! ## Observables of the effect trace -/

/-- The messages posted to the Slack notification channel, in order. -/
def slackPosts (eff : List Effect) : List String :=
  eff.filterMap (fun e => match e with | .slackPost m => some m | _ => none)

/-- The container names targeted by restart steps, in order. -/
def restartTargets (eff : List Effect) : List String :=
  eff.filterMap (fun e => match e with | .containerRestart n => some n | _ => none)

/-- The thresholds of the process-kill sweeps run, in order. -/
def sweepThresholds (eff : List Effect) : List Nat :=
  eff.filterMap (fun e => match e with | .psQuery t => some t | _ => none)

/-- The `(pid, name)` pairs actually sent a kill signal, in order. -/
def killTargets (eff : List Effect) : List (String × String) :=
  eff.filterMap (fun e => match e with | .kill p n => some (p, n) | _ => none)

/-! ## Concrete worlds and inputs used to instantiate the theorems -/

/-- A CPU alert dict as `check_anomalies` would emit it. -/
def cpuAlert : AlertData := ⟨some ("CPU_SPIKE"), some 95, some 80, some ("HIGH")⟩

/-- A disk alert dict as `check_anomalies` would emit it. -/
def diskAlert : AlertData := ⟨some ("DISK_SPIKE"), some 95, some 90, some ("HIGH")⟩

/-- A network alert dict as `check_anomalies` would emit it. -/
def netAlert : AlertData := ⟨some ("NETWORK_SPIKE"), some 2000000, some 1000000, some ("MEDIUM")⟩

/-- A gate-passing analysis of a CPU alert. -/
def cpuAnalysis : AnalysisResult :=
  ⟨some ("runaway process"), some ("HIGH"), some [], some false, some cpuAlert⟩

/-- A gate-passing analysis of a disk alert. -/
def diskAnalysis : AnalysisResult :=
  ⟨some ("temp file growth"), some ("HIGH"), some [], some false, some diskAlert⟩

/-- A gate-passing analysis of a network alert. -/
def netAnalysis : AnalysisResult :=
  ⟨some ("traffic spike"), some ("HIGH"), some [], some false, some netAlert⟩

/-- Healthy metric source: every query succeeds with no samples. -/
def baseMon : MonitorEnv := ⟨.ok [], .ok [], .ok [], .ok []⟩

/-- Notifier with a configured, working Slack client, no webhook, and a
working incident log. -/
def baseCfg : NotifierEnv := ⟨true, true, none, none, true⟩

/-- A benign world: no Docker client, empty process listing, accepting
kills, succeeding cleanup commands, healthy metrics, Slack configured,
CPU verdict, auto-remediation on. -/
def baseWorld : World :=
  ⟨none, fun _ => .ok (""), fun _ => true, fun _ => true,
   baseMon, baseCfg, cpuAnalysis, true⟩

/-- Docker daemon that raises from `containers.list()`. -/
def d3 : DockerEnv :=
  ⟨.error ("docker daemon unreachable"), fun _ => .status ("running"), true⟩

/-- World in which the Docker listing raises mid-remediation. -/
def w3 : World := { baseWorld with docker := some d3 }

/-- World in which every Prometheus re-poll raises. -/
def w4 : World :=
  { baseWorld with
      mon := ⟨.error ("prometheus unreachable"), .error ("prometheus unreachable"),
              .error ("prometheus unreachable"), .error ("prometheus unreachable")⟩ }

/-- World whose analyzer returns a gate-passing disk verdict (the disk
cleanup then reports success, so verification runs). -/
def w5 : World := { baseWorld with llmVerdict := diskAnalysis }

/-- Same world with auto-remediation disabled. -/
def w5b : World := { w5 with autoRemediation := false }

/-- Five running containers, all restarting fine. -/
def cs5 : List String := ["web-1", "web-2", "web-3", "web-4", "web-5"]

/-- Docker daemon listing the five containers. -/
def d6 : DockerEnv := ⟨.ok cs5, fun _ => .status ("running"), true⟩

/-- World with five running containers and one high-CPU process. -/
def w6 : World :=
  { baseWorld with docker := some d6, psOutput := fun _ => .ok ("1234 stress") }

/-- World whose process listing reports a protected `systemd` process
next to an ordinary one. -/
def w2 : World :=
  { baseWorld with psOutput := fun _ => .ok ("1 systemd-journald\n77 stress") }

/-- World with one high-CPU process whose kill signal is refused. -/
def w7 : World :=
  { baseWorld with psOutput := fun _ => .ok ("123 badproc"), killOk := fun _ => false }

/-- World in which every disk-cleanup sub-operation fails: the prune
raises and every cleanup command exits non-zero. -/
def w8 : World :=
  { baseWorld with
      docker := some ⟨.ok [], fun _ => .status ("running"), false⟩,
      cmdOk := fun _ => false }

/-- A human-required analysis (for the safety gate). -/
def humanAnalysis : AnalysisResult :=
  ⟨some ("unclear"), some ("HIGH"), some [], some true, some cpuAlert⟩

/-- An analysis dict missing the `requires_human_intervention` key. -/
def missingKeyAnalysis : AnalysisResult :=
  ⟨some ("unclear"), some ("HIGH"), some [], none, some cpuAlert⟩

/-! ## Helper lemmas -/

theorem restart_snd (dk : Option DockerEnv) (c : String) :
    (restart_docker_container dk c).2 = [Effect.containerRestart c] := by
  unfold restart_docker_container
  cases dk with
  | none => rfl
  | some d =>
    cases h : d.fate c with
    | notFound => simp [h]
    | raised e => simp [h]
    | status s =>
      simp only [h]
      split <;> rfl

theorem flatten_map_restart (dk : Option DockerEnv) (l : List String) :
    ((l.map (restart_docker_container dk)).map Prod.snd).flatten =
      l.map Effect.containerRestart := by
  induction l with
  | nil => rfl
  | cons c cs ih =>
    simp only [List.map_cons, List.flatten_cons, restart_snd, List.singleton_append]
    rw [ih]

/-- The kill loop only appends kill effects for unprotected names. -/
theorem killFold_effects (w : World) (lines : List String) :
    ∀ acc : List String × List Effect, ∃ pairs : List (String × String),
      (lines.foldl (killStep w) acc).2 =
        acc.2 ++ pairs.map (fun pr => Effect.kill pr.1 pr.2) ∧
      ∀ pr ∈ pairs, isProtected pr.2 = false := by
  induction lines with
  | nil => intro acc; exact ⟨[], by simp, by simp⟩
  | cons line rest ih =>
    intro acc
    show ∃ pairs, (rest.foldl (killStep w) (killStep w acc line)).2 = _ ∧ _
    unfold killStep
    cases hsp : splitFirstSpace line with
    | nil => exact ih acc
    | cons pid tl =>
      cases tl with
      | nil => exact ih acc
      | cons pname tl2 =>
        cases tl2 with
        | cons a b => exact ih acc
        | nil =>
          by_cases hp : isProtected pname
          · simp only [hp, if_true]
            exact ih acc
          · simp only [hp, if_false]
            by_cases hk : w.killOk pid
            · simp only [hk, if_true]
              obtain ⟨pairs, he, hprot⟩ :=
                ih (acc.1 ++ [s!"{pname} (PID: {pid})"], acc.2 ++ [Effect.kill pid pname])
              refine ⟨(pid, pname) :: pairs, ?_, ?_⟩
              · simpa using he
              · intro pr hpr
                rcases List.mem_cons.mp hpr with h | h
                · subst h; simpa using hp
                · exact hprot pr h
            · simp only [hk, if_false]
              obtain ⟨pairs, he, hprot⟩ :=
                ih (acc.1, acc.2 ++ [Effect.kill pid pname])
              refine ⟨(pid, pname) :: pairs, ?_, ?_⟩
              · simpa using he
              · intro pr hpr
                rcases List.mem_cons.mp hpr with h | h
                · subst h; simpa using hp
                · exact hprot pr h

theorem slackPosts_append (xs ys : List Effect) :
    slackPosts (xs ++ ys) = slackPosts xs ++ slackPosts ys := by
  simp [slackPosts]

theorem restartTargets_append (xs ys : List Effect) :
    restartTargets (xs ++ ys) = restartTargets xs ++ restartTargets ys := by
  simp [restartTargets]

theorem sweepThresholds_append (xs ys : List Effect) :
    sweepThresholds (xs ++ ys) = sweepThresholds xs ++ sweepThresholds ys := by
  simp [sweepThresholds]

theorem killTargets_append (xs ys : List Effect) :
    killTargets (xs ++ ys) = killTargets xs ++ killTargets ys := by
  simp [killTargets]

theorem slackPosts_kills (pairs : List (String × String)) :
    slackPosts (pairs.map (fun pr => Effect.kill pr.1 pr.2)) = [] := by
  induction pairs with
  | nil => rfl
  | cons p ps ih => simp [slackPosts]

theorem sweepThresholds_kills (pairs : List (String × String)) :
    sweepThresholds (pairs.map (fun pr => Effect.kill pr.1 pr.2)) = [] := by
  induction pairs with
  | nil => rfl
  | cons p ps ih => simp [sweepThresholds]

theorem restartTargets_kills (pairs : List (String × String)) :
    restartTargets (pairs.map (fun pr => Effect.kill pr.1 pr.2)) = [] := by
  induction pairs with
  | nil => rfl
  | cons p ps ih => simp [restartTargets]

theorem slackPosts_restartList (l : List String) :
    slackPosts (l.map Effect.containerRestart) = [] := by
  induction l with
  | nil => rfl
  | cons c cs ih => simp [slackPosts]

theorem restartTargets_restartList (l : List String) :
    restartTargets (l.map Effect.containerRestart) = l := by
  induction l with
  | nil => rfl
  | cons c cs ih =>
    simp only [List.map_cons, restartTargets, List.filterMap_cons]
    exact congrArg (c :: ·) ih

theorem sweepThresholds_restartList (l : List String) :
    sweepThresholds (l.map Effect.containerRestart) = [] := by
  induction l with
  | nil => rfl
  | cons c cs ih => simp [sweepThresholds]

/-- The cleanup-command loop accumulates the messages of the
successful commands and runs every command. -/
theorem cmdFold (w : World) (cmds : List String) :
    ∀ acc : List String × List Effect,
      cmds.foldl (cmdStep w) acc =
        (acc.1 ++ (cmds.filter w.cmdOk).map (fun cmd => s!"Executed: {cmd}"),
         acc.2 ++ cmds.map Effect.runCmd) := by
  induction cmds with
  | nil => intro acc; simp
  | cons cmd rest ih =>
    intro acc
    rw [List.foldl_cons, ih]
    by_cases h : w.cmdOk cmd
    · simp [cmdStep, h, List.filter_cons]
    · simp [cmdStep, h, List.filter_cons]

/-- Effect trace of the process-kill sweep: the `ps` listing with its
threshold, followed only by kill signals to unprotected names. -/
theorem kill_effects (w : World) (t : Nat) :
    ∃ pairs : List (String × String),
      (kill_high_cpu_processes w t).2 =
        Effect.psQuery t :: pairs.map (fun pr => Effect.kill pr.1 pr.2) ∧
      ∀ pr ∈ pairs, isProtected pr.2 = false := by
  unfold kill_high_cpu_processes
  cases hps : w.psOutput t with
  | error e => exact ⟨[], by simp, by simp⟩
  | ok out =>
    by_cases htrim : pyStrip out = ""
    · simp only [htrim, if_pos rfl]
      exact ⟨[], by simp, by simp⟩
    · simp only [htrim, if_neg htrim]
      obtain ⟨pairs, he, hprot⟩ :=
        killFold_effects w (pySplit (pyStrip out) (Char.ofNat 10)) ([], [])
      exact ⟨pairs, by simp [he], hprot⟩

theorem kill_sweeps (w : World) (t : Nat) :
    sweepThresholds ((kill_high_cpu_processes w t).2) = [t] := by
  obtain ⟨pairs, he, -⟩ := kill_effects w t
  rw [he]
  have : sweepThresholds (Effect.psQuery t :: pairs.map (fun pr => Effect.kill pr.1 pr.2)) =
      t :: sweepThresholds (pairs.map (fun pr => Effect.kill pr.1 pr.2)) := by
    simp [sweepThresholds]
  rw [this, sweepThresholds_kills]

theorem kill_no_restarts (w : World) (t : Nat) :
    restartTargets ((kill_high_cpu_processes w t).2) = [] := by
  obtain ⟨pairs, he, -⟩ := kill_effects w t
  rw [he]
  have : restartTargets (Effect.psQuery t :: pairs.map (fun pr => Effect.kill pr.1 pr.2)) =
      restartTargets (pairs.map (fun pr => Effect.kill pr.1 pr.2)) := by
    simp [restartTargets]
  rw [this, restartTargets_kills]

theorem kill_no_slack (w : World) (t : Nat) :
    slackPosts ((kill_high_cpu_processes w t).2) = [] := by
  obtain ⟨pairs, he, -⟩ := kill_effects w t
  rw [he]
  have : slackPosts (Effect.psQuery t :: pairs.map (fun pr => Effect.kill pr.1 pr.2)) =
      slackPosts (pairs.map (fun pr => Effect.kill pr.1 pr.2)) := by
    simp [slackPosts]
  rw [this, slackPosts_kills]

theorem clear_no_slack (w : World) :
    slackPosts ((clear_disk_space w).2) = [] := by
  unfold clear_disk_space
  rw [cmdFold]
  cases w.docker with
  | none =>
    simp only []
    rw [slackPosts_append]
    have h1 : slackPosts ([] : List Effect) = [] := rfl
    have h2 : slackPosts (tempCommands.map Effect.runCmd) = [] := by
      simp [slackPosts, tempCommands]
    simp [h1, h2, slackPosts]
  | some d =>
    by_cases hp : d.pruneOk <;>
      simp [hp, slackPosts_append, slackPosts, tempCommands]

/-- Remediation never posts to the notification channel: its effects
are restarts, sweeps, kills, prunes, and cleanup commands only. -/
theorem exec_no_slack (w : World) (a : AnalysisResult) :
    slackPosts ((execute_remediation w a).2) = [] := by
  cases hd : w.docker with
  | none =>
    simp only [execute_remediation, hd]
    split
    · rfl
    · split
      · exact kill_no_slack w 90
      · split
        · rfl
        · split
          · exact clear_no_slack w
          · rfl
  | some d =>
    cases hcs : d.listContainers with
    | error e =>
      simp only [execute_remediation, hd, hcs]
      split
      · rfl
      · split
        · rfl
        · split
          · rfl
          · split
            · exact clear_no_slack w
            · rfl
    | ok cs =>
      simp only [execute_remediation, hd, hcs]
      split
      · rfl
      · split
        · rw [flatten_map_restart, slackPosts_append, slackPosts_restartList,
            kill_no_slack]
          rfl
        · split
          · rw [flatten_map_restart, slackPosts_restartList]
          · split
            · exact clear_no_slack w
            · rfl

/-- With a configured Slack client, `send_notification` posts exactly
the formatted incident message to the channel. -/
theorem send_notification_slack (cfg : NotifierEnv) (al : AlertData)
    (ar : Option AnalysisResult) (rr : Option RemediationOutcome)
    (hs : cfg.slackConfigured = true) :
    slackPosts ((send_notification cfg al ar rr).2) =
      [format_alert_message al ar rr] := by
  unfold send_notification
  rw [hs]
  cases hw : cfg.webhookUrl with
  | none => simp [send_slack_notification, hs, log_incident, slackPosts]
  | some u =>
    simp [send_slack_notification, send_webhook_notification, hs, hw,
      log_incident, slackPosts]

/-- With a configured Slack client, verification posts exactly its
verdict message. -/
theorem verify_slack (w : World) (al : AlertData)
    (hs : w.cfg.slackConfigured = true) :
    slackPosts ((verify_remediation w al).effects) =
      [(verify_remediation w al).message] := by
  unfold verify_remediation
  simp [send_slack_notification, hs, slackPosts]

/-- When every metric query raises, every getter falls back to `0.0`
and no threshold is breached. -/
theorem check_anomalies_poll_failure (m : MonitorEnv)
    (e1 e2 e3 e4 : String)
    (h1 : m.cpuQ = .error e1) (h2 : m.memQ = .error e2)
    (h3 : m.diskQ = .error e3) (h4 : m.netQ = .error e4) :
    check_anomalies m = [] := by
  have hc : get_cpu_usage m = 0 := by simp [get_cpu_usage, h1]
  have hm : get_memory_usage m = 0 := by simp [get_memory_usage, h2]
  have hdk : get_disk_usage m = 0 := by simp [get_disk_usage, h3]
  have hn : get_network_usage m = 0 := by simp [get_network_usage, h4]
  unfold check_anomalies
  rw [hc, hm, hdk, hn]
  norm_num [cpu_threshold, memory_threshold, disk_threshold, network_threshold]

/-- Both safety-gate conditions produce the skip dict with an empty
effect trace. -/
theorem exec_gate_skip (w : World) (a : AnalysisResult)
    (h : a.requires_human_intervention.getD true = true ∨
         (a.confidence.getD ("LOW") == "LOW") = true) :
    execute_remediation w a =
      (.ok (.skip ("Remediation requires human intervention")
                  "Low confidence or human intervention required"), []) := by
  unfold execute_remediation
  rcases h with h | h <;> simp [h]

/-- Passing the gate with a CPU alert and a successful container
listing: restart the first three containers, then run the kill sweep at
threshold 90. -/
theorem exec_cpu (w : World) (a : AnalysisResult) (d : DockerEnv) (cs : List String)
    (hrh : a.requires_human_intervention.getD true = false)
    (hc : (a.confidence.getD ("LOW") == "LOW") = false)
    (ht : alertTypeOf a = "CPU_SPIKE")
    (hd : w.docker = some d) (hl : d.listContainers = .ok cs) :
    execute_remediation w a =
      (.ok (.done
        ((((cs.take 3).map (fun c => (restart_docker_container w.docker c).1)) ++
          [(kill_high_cpu_processes w 90).1]).any (fun r => r.success))
        (((cs.take 3).map (fun c => (restart_docker_container w.docker c).1)) ++
          [(kill_high_cpu_processes w 90).1])),
       (cs.take 3).map Effect.containerRestart ++ (kill_high_cpu_processes w 90).2) := by
  simp only [execute_remediation, hrh, hc, Bool.or_self, Bool.false_or, ht, hd, hl]
  simp only [beq_self_eq_true, if_true, if_false, Bool.false_eq_true, ite_false, ite_true]
  rw [flatten_map_restart]
  simp [List.map_map, Function.comp_def]

/-- A world whose Docker listing does not raise makes
`execute_remediation` total (no exception escapes). -/
theorem exec_ok_of_list_ok (w : World) (a : AnalysisResult)
    (hl : ∀ d, w.docker = some d → ∃ cs, d.listContainers = .ok cs) :
    ∃ r, (execute_remediation w a).1 = .ok r := by
  cases hd : w.docker with
  | none =>
    simp only [execute_remediation, hd]
    split
    · exact ⟨_, rfl⟩
    · split
      · exact ⟨_, rfl⟩
      · split
        · exact ⟨_, rfl⟩
        · split
          · exact ⟨_, rfl⟩
          · exact ⟨_, rfl⟩
  | some d =>
    obtain ⟨cs, hcs⟩ := hl d hd
    simp only [execute_remediation, hd, hcs]
    split
    · exact ⟨_, rfl⟩
    · split
      · exact ⟨_, rfl⟩
      · split
        · exact ⟨_, rfl⟩
        · split
          · exact ⟨_, rfl⟩
          · exact ⟨_, rfl⟩

/-- Every `done` outcome aggregates success as `List.any` of the step
successes. -/
theorem exec_done_shape (w : World) (a : AnalysisResult) (s : Bool) (rs : List StepResult)
    (h : (execute_remediation w a).1 = .ok (.done s rs)) :
    s = rs.any (fun r => r.success) := by
  cases hd : w.docker with
  | none =>
    simp only [execute_remediation, hd] at h
    split at h
    · simp at h
    · split at h
      · simp only [Except.ok.injEq, RemediationOutcome.done.injEq] at h
        obtain ⟨h1, h2⟩ := h
        subst h2; exact h1.symm
      · split at h
        · simp only [Except.ok.injEq, RemediationOutcome.done.injEq] at h
          obtain ⟨h1, h2⟩ := h
          subst h2; exact h1.symm
        · split at h
          · simp only [Except.ok.injEq, RemediationOutcome.done.injEq] at h
            obtain ⟨h1, h2⟩ := h
            subst h2; exact h1.symm
          · simp only [Except.ok.injEq, RemediationOutcome.done.injEq] at h
            obtain ⟨h1, h2⟩ := h
            subst h2; subst h1; rfl
  | some d =>
    cases hcs : d.listContainers with
    | error e =>
      simp only [execute_remediation, hd, hcs] at h
      split at h
      · simp at h
      · split at h
        · simp at h
        · split at h
          · simp at h
          · split at h
            · simp only [Except.ok.injEq, RemediationOutcome.done.injEq] at h
              obtain ⟨h1, h2⟩ := h
              subst h2; exact h1.symm
            · simp only [Except.ok.injEq, RemediationOutcome.done.injEq] at h
              obtain ⟨h1, h2⟩ := h
              subst h2; subst h1; rfl
    | ok cs =>
      simp only [execute_remediation, hd, hcs] at h
      split at h
      · simp at h
      · split at h
        · simp only [Except.ok.injEq, RemediationOutcome.done.injEq] at h
          obtain ⟨h1, h2⟩ := h
          subst h2; exact h1.symm
        · split at h
          · simp only [Except.ok.injEq, RemediationOutcome.done.injEq] at h
            obtain ⟨h1, h2⟩ := h
            subst h2; exact h1.symm
          · split at h
            · simp only [Except.ok.injEq, RemediationOutcome.done.injEq] at h
              obtain ⟨h1, h2⟩ := h
              subst h2; exact h1.symm
            · simp only [Except.ok.injEq, RemediationOutcome.done.injEq] at h
              obtain ⟨h1, h2⟩ := h
              subst h2; subst h1; rfl

/-! ## Claim theorems -/

/-- C1: for every world and every analysis verdict, if the verdict has
`requires_human_intervention` true or `confidence` equal to `LOW`, then
`execute_remediation` returns the skip dict (success false, the
human-intervention message, no `remediation_results` key) and performs
no remediation effect of any kind, for every alert class. -/
theorem C1_gate_skips_without_action (w : World) (a : AnalysisResult)
    (h : a.requires_human_intervention = some true ∨ a.confidence = some ("LOW")) :
    execute_remediation w a =
      (.ok (.skip ("Remediation requires human intervention")
                  "Low confidence or human intervention required"), []) := by
  apply exec_gate_skip
  rcases h with h | h
  · left; rw [h]; rfl
  · right; rw [h]; rfl

/-- C1 witness: a human-required verdict on a CPU alert is skipped with
an empty effect trace. -/
theorem C1_witness :
    (humanAnalysis.requires_human_intervention = some true ∨
      humanAnalysis.confidence = some ("LOW")) ∧
    execute_remediation baseWorld humanAnalysis =
      (.ok (.skip ("Remediation requires human intervention")
                  "Low confidence or human intervention required"), []) :=
  ⟨Or.inl rfl, C1_gate_skips_without_action baseWorld humanAnalysis (Or.inl rfl)⟩

/-- C10: an analysis dict missing the `requires_human_intervention` key
(default `True`) or missing the `confidence` key (default `LOW`) is
treated as requiring a human: `execute_remediation` returns the skip
dict and performs no effect — the gate denies by default. -/
theorem C10_missing_keys_deny (w : World) (a : AnalysisResult)
    (h : a.requires_human_intervention = none ∨ a.confidence = none) :
    execute_remediation w a =
      (.ok (.skip ("Remediation requires human intervention")
                  "Low confidence or human intervention required"), []) := by
  apply exec_gate_skip
  rcases h with h | h
  · left; rw [h]; rfl
  · right; rw [h]; rfl

/-- C10 witness: a verdict whose dict lacks the human-intervention key
is skipped even though its confidence is HIGH. -/
theorem C10_witness :
    (missingKeyAnalysis.requires_human_intervention = none ∨
      missingKeyAnalysis.confidence = none) ∧
    execute_remediation baseWorld missingKeyAnalysis =
      (.ok (.skip ("Remediation requires human intervention")
                  "Low confidence or human intervention required"), []) :=
  ⟨Or.inl rfl, C10_missing_keys_deny baseWorld missingKeyAnalysis (Or.inl rfl)⟩

/-- C2: the process-kill sweep never sends a kill signal to a process
whose (lower-cased) name contains an entry of the protected-name list
(`systemd`, `kernel`, `init`) — in every world and at every threshold,
no kill effect targets a protected name. -/
theorem C2_protected_never_killed (w : World) (t : Nat) (pid pname : String)
    (h : isProtected pname = true) :
    Effect.kill pid pname ∉ (kill_high_cpu_processes w t).2 := by
  obtain ⟨pairs, he, hprot⟩ := kill_effects w t
  rw [he]
  intro hmem
  rcases List.mem_cons.mp hmem with hc | hc
  · simp at hc
  · obtain ⟨pr, hpr, heq⟩ := List.mem_map.mp hc
    have hn : pr.2 = pname := by
      injection heq
    have := hprot pr hpr
    rw [hn, h] at this
    cases this

/-- C2 witness: in a world whose listing contains a `systemd` process,
that process is never signalled. -/
theorem C2_witness :
    isProtected ("systemd-journald") = true ∧
    Effect.kill ("1") ("systemd-journald") ∉ (kill_high_cpu_processes w2 90).2 :=
  ⟨by decide, C2_protected_never_killed w2 90 ("1") ("systemd-journald") (by decide)⟩

/-- C9: on every non-gated path, the success flag of the aggregated outcome
is true iff at least one step result succeeded; and a gate-passing
alert type with no branch (e.g. `NETWORK_SPIKE`) yields success false
with an empty step list and no effects. -/
theorem C9_success_iff_any_step (w : World) (a : AnalysisResult) :
    (∀ s rs, (execute_remediation w a).1 = .ok (.done s rs) →
      (s = true ↔ ∃ r ∈ rs, r.success = true)) ∧
    (a.requires_human_intervention.getD true = false →
      (a.confidence.getD ("LOW") == "LOW") = false →
      alertTypeOf a = "NETWORK_SPIKE" →
      execute_remediation w a = (.ok (.done false []), [])) := by
  constructor
  · intro s rs h
    have hs := exec_done_shape w a s rs h
    rw [hs]
    simp
  · intro h1 h2 h3
    simp only [execute_remediation, h1, h2, h3, Bool.or_self, Bool.false_or]
    simp

/-- C9 witness: a gate-passing network alert produces the empty step
list with success false, and the iff instantiates on it. -/
theorem C9_witness :
    ((false = true) ↔ ∃ r ∈ ([] : List StepResult), r.success = true) ∧
    execute_remediation baseWorld netAnalysis = (.ok (.done false []), []) := by
  have h := C9_success_iff_any_step baseWorld netAnalysis
  exact ⟨h.1 false [] (by rfl), h.2 (by rfl) (by rfl) (by rfl)⟩

/-- C6: for every CPU alert that passes the safety gate (with the
Docker listing succeeding), the remediation restarts exactly the first
3 listed running containers in list order (all of them when fewer), and
is then always followed by exactly one process-kill sweep at threshold
90, regardless of the restart results, which are still all recorded
before the kill step. -/
theorem C6_cpu_plan (w : World) (a : AnalysisResult) (d : DockerEnv) (cs : List String)
    (hrh : a.requires_human_intervention.getD true = false)
    (hc : (a.confidence.getD ("LOW") == "LOW") = false)
    (ht : alertTypeOf a = "CPU_SPIKE")
    (hd : w.docker = some d) (hl : d.listContainers = .ok cs) :
    restartTargets ((execute_remediation w a).2) = cs.take 3 ∧
    sweepThresholds ((execute_remediation w a).2) = [90] ∧
    (execute_remediation w a).2 =
      (cs.take 3).map Effect.containerRestart ++ (kill_high_cpu_processes w 90).2 ∧
    (execute_remediation w a).1 =
      .ok (.done
        ((((cs.take 3).map (fun c => (restart_docker_container w.docker c).1)) ++
          [(kill_high_cpu_processes w 90).1]).any (fun r => r.success))
        (((cs.take 3).map (fun c => (restart_docker_container w.docker c).1)) ++
          [(kill_high_cpu_processes w 90).1])) := by
  have he := exec_cpu w a d cs hrh hc ht hd hl
  have h2 : (execute_remediation w a).2 =
      (cs.take 3).map Effect.containerRestart ++ (kill_high_cpu_processes w 90).2 := by
    rw [he]
  have h1 : (execute_remediation w a).1 =
      .ok (.done
        ((((cs.take 3).map (fun c => (restart_docker_container w.docker c).1)) ++
          [(kill_high_cpu_processes w 90).1]).any (fun r => r.success))
        (((cs.take 3).map (fun c => (restart_docker_container w.docker c).1)) ++
          [(kill_high_cpu_processes w 90).1])) := by
    rw [he]
  refine ⟨?_, ?_, h2, h1⟩
  · rw [h2, restartTargets_append, restartTargets_restartList, kill_no_restarts]
    simp
  · rw [h2, sweepThresholds_append, sweepThresholds_restartList, kill_sweeps]
    rfl

/-- C6 witness: with five running containers, exactly the first three
are restarted, then one sweep at threshold 90 runs. -/
theorem C6_witness :
    restartTargets ((execute_remediation w6 cpuAnalysis).2) =
      ["web-1", "web-2", "web-3"] ∧
    sweepThresholds ((execute_remediation w6 cpuAnalysis).2) = [90] := by
  obtain ⟨h1, h2, -, -⟩ := C6_cpu_plan w6 cpuAnalysis d6 cs5 rfl rfl rfl rfl rfl
  exact ⟨h1.trans (by rfl), h2⟩

/-- C3 counterexample: when the Docker daemon raises from
`containers.list()` during a gate-passing CPU remediation, the
exception escapes `execute_remediation` (the call is outside every
`try` block), contradicting the claim that it never raises. -/
theorem C3_cex :
    (execute_remediation w3 cpuAnalysis).1 =
      Except.error ("docker daemon unreachable") ∧
    (execute_remediation w3 cpuAnalysis).2 = [] :=
  ⟨rfl, rfl⟩

/-- C3 amended: `execute_remediation` never raises provided the
container-listing call itself does not raise; faults inside the
individual step methods are caught there and become failed step
results. -/
theorem C3_no_raise_when_listing_ok (w : World) (a : AnalysisResult)
    (hl : ∀ d, w.docker = some d → ∃ cs, d.listContainers = .ok cs) :
    ∃ r, (execute_remediation w a).1 = .ok r :=
  exec_ok_of_list_ok w a hl

/-- C3 witness: with no Docker client the listing is never consulted
and the call returns normally. -/
theorem C3_witness :
    ∃ r, (execute_remediation baseWorld cpuAnalysis).1 = .ok r :=
  C3_no_raise_when_listing_ok baseWorld cpuAnalysis
    (by intro d hd; simp [baseWorld] at hd)

/-- C7 counterexample: the sweep finds one unprotected process, its
kill signal is refused, yet the step result still records success
(`Killed 0 high CPU processes`) — contradicting "succeeded iff the
signal was accepted". -/
theorem C7_cex :
    w7.killOk ("123") = false ∧
    killTargets ((kill_high_cpu_processes w7 90).2) = [("123", "badproc")] ∧
    (kill_high_cpu_processes w7 90).1 =
      ⟨true, "Killed 0 high CPU processes", some [], none⟩ :=
  ⟨rfl, rfl, rfl⟩

/-- C7 amended: the result of the kill step records success iff the
process-listing command ran without fault and reported at least one
line; refused kill signals do not fail the step, they only keep the
process out of `killed_processes`. -/
theorem C7_kill_success_iff_listing_nonempty (w : World) (t : Nat) :
    (kill_high_cpu_processes w t).1.success = true ↔
      ∃ out, w.psOutput t = .ok out ∧ pyStrip out ≠ "" := by
  cases hps : w.psOutput t with
  | error e =>
    simp only [kill_high_cpu_processes, hps]
    simp [hps]
  | ok out =>
    simp only [kill_high_cpu_processes, hps]
    by_cases ht : pyStrip out = ""
    · simp [ht, hps]
    · simp [ht, hps]

/-- C8 counterexample: the Docker prune raises and all four cleanup
commands fail, so every sub-operation failed, yet the step reports
success with the fixed message and an empty `actions_taken` — the
failures are not accumulated anywhere in the result. -/
theorem C8_cex :
    (clear_disk_space w8).1 = ⟨true, "Disk cleanup completed", none, some []⟩ ∧
    (clear_disk_space w8).2 =
      [Effect.prune, Effect.runCmd ("sudo rm -rf /tmp/*"),
       Effect.runCmd ("sudo journalctl --vacuum-time=3d"),
       Effect.runCmd ("sudo apt-get autoremove -y"),
       Effect.runCmd ("sudo apt-get autoclean")] :=
  ⟨rfl, rfl⟩

/-- C8 amended: the disk-cleanup step always reports success with the
fixed message `Disk cleanup completed`; `actions_taken` accumulates
exactly the successful sub-operations (prune, then each cleanup command
that exited 0), and failed sub-operations are only logged, appearing
nowhere in the result. -/
theorem C8_cleanup_always_succeeds (w : World) :
    (clear_disk_space w).1.success = true ∧
    (clear_disk_space w).1.message = "Disk cleanup completed" ∧
    (clear_disk_space w).1.actions_taken = some
      ((match w.docker with
        | none => []
        | some d => if d.pruneOk then ["Docker cleanup completed"] else []) ++
       (tempCommands.filter w.cmdOk).map (fun cmd => s!"Executed: {cmd}")) := by
  refine ⟨rfl, rfl, ?_⟩
  unfold clear_disk_space
  rw [cmdFold]
  cases hd : w.docker with
  | none => simp
  | some d => by_cases hp : d.pruneOk <;> simp [hp]

/-- C4 counterexample: every metric re-poll raises, yet verification
reports the incident as resolved (the success message), because the
getters swallow the failure as `0.0` readings — contradicting "treated
as Escalated, never reported as Resolved". -/
theorem C4_cex :
    w4.mon.cpuQ = Except.error ("prometheus unreachable") ∧
    w4.mon.memQ = Except.error ("prometheus unreachable") ∧
    w4.mon.diskQ = Except.error ("prometheus unreachable") ∧
    w4.mon.netQ = Except.error ("prometheus unreachable") ∧
    (verify_remediation w4 cpuAlert).resolved = true ∧
    (verify_remediation w4 cpuAlert).message =
      "✅ System has been successfully remediated. CPU_SPIKE is now within normal thresholds." :=
  ⟨rfl, rfl, rfl, rfl, rfl, rfl⟩

/-- C4 amended: when re-polling the metric source fails, the metric
getters fall back to `0.0`, `check_anomalies` reports no breach, and
`verify_remediation` reports the incident as resolved — the conservative
escalation the claim describes does not exist in the code. -/
theorem C4_poll_failure_reports_resolved (w : World) (al : AlertData)
    (e1 e2 e3 e4 : String)
    (h1 : w.mon.cpuQ = .error e1) (h2 : w.mon.memQ = .error e2)
    (h3 : w.mon.diskQ = .error e3) (h4 : w.mon.netQ = .error e4) :
    (verify_remediation w al).resolved = true := by
  have hca := check_anomalies_poll_failure w.mon e1 e2 e3 e4 h1 h2 h3 h4
  unfold verify_remediation
  rw [hca]
  rfl

/-- C4 witness: applies the amended theorem to the failing-poll world
with a network alert. -/
theorem C4_witness : (verify_remediation w4 netAlert).resolved = true :=
  C4_poll_failure_reports_resolved w4 netAlert
    ("prometheus unreachable") ("prometheus unreachable")
    ("prometheus unreachable") ("prometheus unreachable") rfl rfl rfl rfl

/-- C5 counterexample: on the path where remediation succeeds and
verification runs, two messages are posted to the notification channel
for the one incident (the incident notification and the verification
verdict) — contradicting "exactly one notification". -/
theorem C5_cex :
    w5.cfg.slackConfigured = true ∧
    remediationSucceeded w5 diskAlert = true ∧
    (slackPosts (handle_alert w5 diskAlert)).length = 2 :=
  ⟨rfl, rfl, rfl⟩

/-- C5 amended: with a configured notification channel and a
non-raising remediation, handling an alert posts exactly one incident
notification on every path without successful remediation, and exactly
two messages (incident notification plus verification verdict) when
remediation succeeds and verification runs. -/
theorem C5_notifications (w : World) (al : AlertData)
    (hs : w.cfg.slackConfigured = true)
    (hl : ∀ d, w.docker = some d → ∃ cs, d.listContainers = .ok cs) :
    (slackPosts (handle_alert w al)).length =
      if remediationSucceeded w al then 2 else 1 := by
  by_cases ha : w.autoRemediation = true
  · obtain ⟨r, hr⟩ := exec_ok_of_list_ok w (analyze_incident w al) hl
    have hp : execute_remediation w (analyze_incident w al) =
        (Except.ok r, (execute_remediation w (analyze_incident w al)).2) := by
      rw [← hr]
    simp only [handle_alert, remediationSucceeded, ha, if_true, Bool.true_and]
    rw [hp]
    dsimp only
    by_cases hsucc : r.success = true
    · simp only [hsucc, if_true]
      rw [slackPosts_append, slackPosts_append, exec_no_slack,
        send_notification_slack _ _ _ _ hs, verify_slack _ _ hs]
      rfl
    · have hsucc' : r.success = false := by
        cases hb : r.success
        · rfl
        · exact absurd hb hsucc
      simp only [hsucc', if_false, Bool.false_eq_true]
      rw [slackPosts_append, exec_no_slack,
        send_notification_slack _ _ _ _ hs]
      rfl
  · have ha' : w.autoRemediation = false := by
      cases hb : w.autoRemediation
      · rfl
      · exact absurd hb ha
    simp only [handle_alert, remediationSucceeded, ha', Bool.false_and,
      if_false, Bool.false_eq_true]
    rw [send_notification_slack _ _ _ _ hs]
    rfl

/-- C5 witness: with auto-remediation disabled exactly one notification
is posted. -/
theorem C5_witness : (slackPosts (handle_alert w5b diskAlert)).length = 1 := by
  have h := C5_notifications w5b diskAlert rfl
    (by intro d hd; simp [w5b, w5, baseWorld] at hd)
  have hrs : remediationSucceeded w5b diskAlert = false := rfl
  rw [hrs] at h
  simpa using h
